import Mathlib

/-!
# Verification of the OpenClaw external-message injection bridge

Shallow embedding of `src/telegram/external-messages.ts` (the external
messages HTTP endpoint for Telegram): payload validation, token
extraction, the synthetic-update builder with its module-level
identifier counter, the bot/config registries, the request handler's
branch structure, and the layered configuration resolver.

JavaScript runtime values reaching the bridge from the wire are
modelled by the inductive `JsVal`; JS coercions (`Number(x)`,
truthiness, nullish checks) are modelled by explicit functions.
Numbers are modelled as integers (`Int`), with the `NaN` outcome of a
failed numeric coercion represented as `Option.none`; all identifiers
and timestamps handled by the bridge are whole numbers, and no claim
depends on fractional values.
-/

namespace OpenClaw

/-- A JavaScript runtime value, as far as the bridge inspects one.
Objects are association lists of fields; `undefined` is the result of
reading an absent property. -/
inductive JsVal where
  | null
  | undefined
  | bool (b : Bool)
  | num (n : Int)
  | str (s : String)
  | obj (fields : List (String × JsVal))
  | arr (elems : List JsVal)

/-- Property read `o[k]` on an object's field list: absent keys give
`undefined`. -/
def getField (fields : List (String × JsVal)) (k : String) : JsVal :=
  match fields.lookup k with
  | some v => v
  | none => JsVal.undefined

/-- Property read `v?.[k]` / `v[k]` as the bridge uses it: objects look
up the field; `null`/`undefined` give `undefined` (the source only
reads behind optional chaining); other primitives have none of the
bridge's keys, so the read gives `undefined`. -/
def jsGet (v : JsVal) (k : String) : JsVal :=
  match v with
  | JsVal.obj fields => getField fields k
  | _ => JsVal.undefined

/-- JS loose equality against `null` (`x == null`): true exactly for
`null` and `undefined`. -/
def isNullish : JsVal → Bool
  | JsVal.null => true
  | JsVal.undefined => true
  | _ => false

/-- JS truthiness: `null`, `undefined`, `false`, `0`, and `""` are
falsy; every object/array is truthy. (`NaN` is falsy in JS; a bare
`NaN` literal never reaches the bridge's truthiness tests, which are
applied to wire-decoded JSON values, so it has no constructor here.) -/
def jsTruthy : JsVal → Bool
  | JsVal.null => false
  | JsVal.undefined => false
  | JsVal.bool b => b
  | JsVal.num n => n != 0
  | JsVal.str s => s != ""
  | JsVal.obj _ => true
  | JsVal.arr _ => true

/-- The ASCII fragment of the whitespace class JS string trimming and
numeric conversion ignore (space, tab, and the line terminators /
form-feed / vertical-tab controls). -/
def jsIsWhitespace (c : Char) : Bool :=
  c = ' ' || c = '\t' || c = '\n' || c = '\r' || c = '\x0b' || c = '\x0c'

/-- JS `String.prototype.trim`: strip leading and trailing
whitespace. -/
def jsTrim (s : String) : String :=
  ⟨((s.data.dropWhile jsIsWhitespace).reverse.dropWhile jsIsWhitespace).reverse⟩

/-- JS `String.prototype.startsWith`. -/
def jsStartsWith (s pre : String) : Bool :=
  pre.data.isPrefixOf s.data

/-- JS `String.prototype.slice(n)` for a non-negative start index. -/
def jsSlice (s : String) (n : Nat) : String :=
  ⟨s.data.drop n⟩

/-- Value of a list of decimal digit characters. -/
def digitsVal : List Char → Nat → Nat
  | [], acc => acc
  | c :: cs, acc => digitsVal cs (acc * 10 + (c.toNat - 48))

/-- The decimal-integer fragment of JS `Number(string)`: surrounding
whitespace is ignored, the empty string converts to `0`, an optional
sign followed by decimal digits converts to the signed value, and
anything else converts to `NaN` (`none`). Fractional, exponent, hex
and binary literal forms are outside the integer model and also give
`none`. -/
def jsStringToNumber (s : String) : Option Int :=
  match (jsTrim s).data with
  | [] => some 0
  | c :: rest =>
    if c = '-' then
      if rest ≠ [] ∧ rest.all Char.isDigit then some (-(digitsVal rest 0 : Int)) else none
    else if c = '+' then
      if rest ≠ [] ∧ rest.all Char.isDigit then some (digitsVal rest 0 : Int) else none
    else if (c :: rest).all Char.isDigit then some (digitsVal (c :: rest) 0 : Int)
    else none

/-- JS `Number(v)` as the builder applies it to payload fields:
numbers are themselves, strings parse as above, booleans convert to
0/1, `null` to 0, `undefined` to `NaN`. Objects and arrays convert
through string coercion and, for every value the bridge can receive in
an identifier field, the common outcome is `NaN`; the model maps them
to `none` (no claim exercises object-valued identifiers). -/
def jsToNumber : JsVal → Option Int
  | JsVal.num n => some n
  | JsVal.str s => jsStringToNumber s
  | JsVal.bool b => some (if b then 1 else 0)
  | JsVal.null => some 0
  | JsVal.undefined => none
  | JsVal.obj _ => none
  | JsVal.arr _ => none

/-- String content of a value the source has already narrowed to a
string (`payload.senderName`, `payload.text` after `validatePayload`).
On a non-string the source would throw a `TypeError`; the handler only
evaluates these reads after validation guarantees a string, so the
default is never reached on any path modelled here. -/
def asStr : JsVal → String
  | JsVal.str s => s
  | _ => ""

/-- Numeric content of a value the source has already narrowed to a
number (`payload.timestamp` after `validatePayload`); same proviso as
`asStr`. -/
def asNum : JsVal → Int
  | JsVal.num n => n
  | _ => 0

/-- `validatePayload` from the source: the body must be a (truthy)
object, `chatId` and `messageId` must be non-nullish (numeric or
string values are both accepted, with no normalization), `senderName`
must be a string that is non-empty after trimming, `text` must be a
string (empty allowed), `timestamp` must be a number. Arrays pass the
JS `typeof payload === "object"` test but carry none of the required
properties, so they fail the `chatId` check; the model routes them
through the same field checks over an empty field list. -/
def checkPayloadFields (fields : List (String × JsVal)) : Bool :=
  !isNullish (getField fields "chatId") &&
  !isNullish (getField fields "messageId") &&
  (match getField fields "senderName" with
   | JsVal.str s => jsTrim s != ""
   | _ => false) &&
  (match getField fields "text" with
   | JsVal.str _ => true
   | _ => false) &&
  (match getField fields "timestamp" with
   | JsVal.num _ => true
   | _ => false)

def validatePayload : JsVal → Bool
  | JsVal.obj fields => checkPayloadFields fields
  | JsVal.arr _ => checkPayloadFields []
  | _ => false

/-- `extractToken` from the source: if the `Authorization` header is
present and starts with `"Bearer "`, the rest of it, trimmed;
otherwise, if the `X-OpenClaw-Token` header is present as a string,
that header trimmed; otherwise no token. -/
def extractToken (authorization xOpenclawToken : Option String) : Option String :=
  match authorization with
  | some a =>
    if jsStartsWith a "Bearer " then some (jsTrim (jsSlice a 7))
    else xOpenclawToken.map (fun t => jsTrim t)
  | none => xOpenclawToken.map (fun t => jsTrim t)

/-- Chat kinds the builder emits (`"supergroup"` / `"private"`). -/
inductive ChatType where
  | supergroup
  | «private»
deriving DecidableEq

/-- `User` as the builder populates it. `id` is `Option Int` because
`Number(payload.senderId)` can be `NaN` for a truthy non-numeric
sender id; `username` carries the raw payload value, attached only
when truthy. -/
structure User where
  id : Option Int
  is_bot : Bool
  first_name : String
  username : Option JsVal

/-- `Chat` as the builder populates it: a supergroup descriptor with a
`title`, or a private descriptor with a `first_name`. -/
structure Chat where
  id : Option Int
  type : ChatType
  title : Option String
  first_name : Option String

/-- The minimal `reply_to_message` stand-in the builder constructs for
a supplied reply target. -/
structure ReplyMessageStub where
  message_id : Option Int
  date : Int
  chat : Chat

/-- The synthetic `Message` embedded in the update. -/
structure SyntheticMessage where
  message_id : Option Int
  date : Int
  chat : Chat
  «from» : User
  text : String
  reply_to_message : Option ReplyMessageStub
  message_thread_id : Option JsVal

/-- The synthetic Telegram `Update`. -/
structure Update where
  update_id : Int
  message : SyntheticMessage

/-- JS number-to-string coercion as used in the synthesized title
`` `Chat ${chatId}` ``; `NaN` prints as `"NaN"`. -/
def numToJsString : Option Int → String
  | some n => toString n
  | none => "NaN"

/-- `buildSyntheticUpdate` from the source, over the validated
payload's field list and the module-level `syntheticUpdateCounter`.
`syntheticUpdateCounter--` yields the counter's current value as the
update id and leaves the counter one lower; the function returns the
built update together with the new counter value. -/
def buildSyntheticUpdate (fields : List (String × JsVal)) (syntheticUpdateCounter : Int) :
    Update × Int :=
  let updateId := syntheticUpdateCounter
  let nextCounter := syntheticUpdateCounter - 1
  let chatId := jsToNumber (getField fields "chatId")
  let messageId := jsToNumber (getField fields "messageId")
  let senderId := if jsTruthy (getField fields "senderId")
                  then jsToNumber (getField fields "senderId")
                  else some 0
  let firstName := jsTrim (asStr (getField fields "senderName"))
  let sender : User :=
    { id := senderId
      is_bot := false
      first_name := firstName
      username := if jsTruthy (getField fields "senderUsername")
                  then some (getField fields "senderUsername")
                  else none }
  -- Groups have negative chat IDs; `NaN < 0` is false in JS, so a
  -- non-numeric chat id classifies as non-group.
  let isGroup : Bool := match chatId with
    | some n => decide (n < 0)
    | none => false
  let chat : Chat :=
    if isGroup then
      { id := chatId
        type := ChatType.supergroup
        title := some ("Chat " ++ numToJsString chatId)
        first_name := none }
    else
      { id := chatId
        type := ChatType.«private»
        title := none
        first_name := some firstName }
  let message : SyntheticMessage :=
    { message_id := messageId
      date := asNum (getField fields "timestamp")
      chat := chat
      «from» := sender
      text := asStr (getField fields "text")
      reply_to_message :=
        if jsTruthy (getField fields "replyToMessageId") then
          some { message_id := jsToNumber (getField fields "replyToMessageId")
                 date := asNum (getField fields "timestamp")
                 chat := chat }
        else none
      message_thread_id :=
        if jsTruthy (getField fields "topicId") then some (getField fields "topicId")
        else none }
  ({ update_id := updateId, message := message }, nextCounter)

/-- A live session's dispatch entry point (`bot.handleUpdate`): the
awaited call either succeeds or raises with an error message. -/
def Bot : Type := Update → Except String Unit

/-- `ExternalMessagesConfig` from the source. `envelopeOptions` is
produced by the out-of-scope envelope module and never read by the
bridge, so it is not modelled. -/
structure ExternalMessagesConfig where
  secret : String
  historyLimit : Int

/-- JS `Map.set`: replace the entry in place when the key exists,
append otherwise (only lookup order is observable here). -/
def mapSet {α : Type} (m : List (String × α)) (k : String) (v : α) : List (String × α) :=
  match m with
  | [] => [(k, v)]
  | (k', v') :: rest => if k' = k then (k, v) :: rest else (k', v') :: mapSet rest k v

/-- JS `Map.delete`: drop the key's entry. -/
def mapDelete {α : Type} (m : List (String × α)) (k : String) : List (String × α) :=
  m.filter (fun e => e.1 != k)

/-- The module-level mutable state of the bridge: the two registries
and the synthetic-update id counter. -/
structure BridgeState where
  botRegistry : List (String × Bot)
  configRegistry : List (String × ExternalMessagesConfig)
  syntheticUpdateCounter : Int

/-- Module initialisation: empty registries, counter starts at `-1`. -/
def initialBridgeState : BridgeState :=
  { botRegistry := [], configRegistry := [], syntheticUpdateCounter := -1 }

/-- `registerBotForExternalMessages` from the source: sets both
registry entries for the account. -/
def registerBotForExternalMessages (st : BridgeState) (accountId : String) (bot : Bot)
    (config : ExternalMessagesConfig) : BridgeState :=
  { st with
    botRegistry := mapSet st.botRegistry accountId bot
    configRegistry := mapSet st.configRegistry accountId config }

/-- `unregisterBotForExternalMessages` from the source: deletes both
registry entries for the account. -/
def unregisterBotForExternalMessages (st : BridgeState) (accountId : String) : BridgeState :=
  { st with
    botRegistry := mapDelete st.botRegistry accountId
    configRegistry := mapDelete st.configRegistry accountId }

/-- An incoming HTTP request as the handler observes it. `pathname`,
`queryHasToken` and `queryHasSecret` are what `new URL(req.url)`
exposes; `body` is the outcome of `readJsonBody` (a parse/size error
message, or the decoded JSON value). -/
structure Request where
  pathname : String
  method : String
  queryHasToken : Bool
  queryHasSecret : Bool
  authorization : Option String
  xOpenclawToken : Option String
  body : Except String JsVal

/-- A response body the handler writes: plain text (405), a
`{ ok: false, error }` JSON object, or the `{ ok: true, updateId,
messageId, chatId }` success object (the message and chat identifiers
are echoed back raw from the payload). -/
inductive RespBody where
  | text (s : String)
  | jsonError (error : String)
  | jsonOk (updateId : Int) (messageId : JsVal) (chatId : JsVal)

structure HttpResponse where
  status : Nat
  body : RespBody

/-- Outcome of one handler invocation. `handled` is the returned
boolean; `response` is what was written to `res` (absent when the
request was declined or the handler's promise rejected);
`uncaughtError` marks the promise rejecting on an uncaught throw;
`dispatched` lists every call made to `bot.handleUpdate`, in order. -/
structure HandlerResult where
  handled : Bool
  response : Option HttpResponse
  uncaughtError : Bool
  dispatched : List Update
  state : BridgeState

/-- `sendJson(res, status, body)` followed by `return true`, with no
dispatch and no state change. -/
def sendJson (st : BridgeState) (status : Nat) (body : RespBody) : HandlerResult :=
  { handled := true
    response := some { status := status, body := body }
    uncaughtError := false
    dispatched := []
    state := st }

/-- `payload.accountId?.trim() || "default"`: a nullish account id
gives `"default"` via optional chaining and `||`; a string that trims
to empty is falsy and also gives `"default"`. A non-nullish non-string
value makes the source throw a `TypeError` (`.trim` is not a
function) outside any `try`, rejecting the handler's promise:
modelled as `none`. -/
def resolveAccountId (fields : List (String × JsVal)) : Option String :=
  match getField fields "accountId" with
  | JsVal.str s => some (if jsTrim s = "" then "default" else jsTrim s)
  | JsVal.null => some "default"
  | JsVal.undefined => some "default"
  | _ => none

/-- `handleExternalMessagesRequest` from the source: the per-request
state machine, terminal at the first applicable branch. -/
def handleExternalMessagesRequest (st : BridgeState) (req : Request) : HandlerResult :=
  if req.pathname ≠ "/api/telegram/external-messages" then
    { handled := false, response := none, uncaughtError := false, dispatched := [], state := st }
  else if req.method ≠ "POST" then
    { handled := true
      response := some { status := 405, body := RespBody.text "Method Not Allowed" }
      uncaughtError := false
      dispatched := []
      state := st }
  else if req.queryHasToken || req.queryHasSecret then
    sendJson st 400 (RespBody.jsonError
      "Token must be provided via Authorization: Bearer <token> or X-OpenClaw-Token header (query parameters are not allowed)")
  else
    -- `const token = extractToken(req); if (!token)`: both a missing
    -- token and an extracted-but-empty token are falsy.
    match extractToken req.authorization req.xOpenclawToken with
    | none => sendJson st 401 (RespBody.jsonError "Missing authentication token")
    | some token =>
      if token = "" then sendJson st 401 (RespBody.jsonError "Missing authentication token")
      else
        match req.body with
        | Except.error errMsg => sendJson st 400 (RespBody.jsonError errMsg)
        | Except.ok payload =>
          if !validatePayload payload then
            sendJson st 400 (RespBody.jsonError
              "Invalid payload: required fields are chatId, messageId, senderName, text, timestamp")
          else
            -- a validated payload is necessarily an object (arrays and
            -- non-objects fail `validatePayload`), so the default arm
            -- below is unreachable
            let fields := match payload with
              | JsVal.obj fs => fs
              | _ => []
            match resolveAccountId fields with
            | none =>
              { handled := true, response := none, uncaughtError := true
                dispatched := [], state := st }
            | some accountId =>
              match st.botRegistry.lookup accountId, st.configRegistry.lookup accountId with
              | some bot, some config =>
                if token ≠ config.secret then
                  sendJson st 401 (RespBody.jsonError "Invalid authentication token")
                else
                  let built := buildSyntheticUpdate fields st.syntheticUpdateCounter
                  let st' := { st with syntheticUpdateCounter := built.2 }
                  match bot built.1 with
                  | Except.error errMsg =>
                    { sendJson st' 500 (RespBody.jsonError ("Processing failed: " ++ errMsg)) with
                      dispatched := [built.1] }
                  | Except.ok _ =>
                    { sendJson st' 200 (RespBody.jsonOk built.1.update_id
                        (getField fields "messageId") (getField fields "chatId")) with
                      dispatched := [built.1] }
              | _, _ =>
                sendJson st 503 (RespBody.jsonError
                  ("No Telegram bot running for account \"" ++ accountId ++ "\""))

/-- One process-lifetime event at the bridge's interface: a session
registering, a session unregistering, or an HTTP request arriving. -/
inductive BridgeAction where
  | register (accountId : String) (bot : Bot) (config : ExternalMessagesConfig)
  | unregister (accountId : String)
  | request (req : Request)

/-- One action's effect on the bridge state, together with the
synthetic update identifiers allocated while handling it. -/
def stepAction (st : BridgeState) (a : BridgeAction) : BridgeState × List Int :=
  match a with
  | BridgeAction.register accountId bot config =>
    (registerBotForExternalMessages st accountId bot config, [])
  | BridgeAction.unregister accountId =>
    (unregisterBotForExternalMessages st accountId, [])
  | BridgeAction.request req =>
    let r := handleExternalMessagesRequest st req
    (r.state, r.dispatched.map (fun u => u.update_id))

/-- Run a sequence of actions, collecting all allocated synthetic
update identifiers in order. -/
def runActions (st : BridgeState) : List BridgeAction → BridgeState × List Int
  | [] => (st, [])
  | a :: rest =>
    let s := stepAction st a
    let r := runActions s.1 rest
    (r.1, s.2 ++ r.2)

/-- The synthetic update identifiers allocated over a whole process
lifetime starting from module initialisation. -/
def allocatedIds (actions : List BridgeAction) : List Int :=
  (runActions initialBridgeState actions).2

/-- `cfg.messages?.groupChat` as the resolver reads it. -/
structure GroupChatConfig where
  historyLimit : Option Int

structure MessagesConfig where
  groupChat : Option GroupChatConfig

/-- `cfg.channels?.telegram` as the resolver reads it. Per-account
configs and the channel-level `externalMessages` block are accessed
through `unknown`-typed records in the source, so they are modelled
as raw `JsVal`s (`undefined` when absent); `historyLimit` is a typed
optional number, consumed through `??`. -/
structure TelegramChannelConfig where
  accounts : Option (List (String × JsVal))
  externalMessages : JsVal
  historyLimit : Option Int

structure ChannelsConfig where
  telegram : Option TelegramChannelConfig

/-- The slice of `loadConfig()` the resolver consults. -/
structure OpenClawConfig where
  channels : Option ChannelsConfig
  messages : Option MessagesConfig

/-- `resolveExternalMessagesConfig` from the source: pick the
account's `externalMessages` block, falling back to the channel-level
one via `??`; require it to be an object with a string secret that is
non-empty after trimming, else `null`; the history limit is the
block's own numeric `historyLimit` if present, else the channel-wide
`telegramConfig.historyLimit`, else the global
`cfg.messages?.groupChat?.historyLimit`, else `50`. An array passes
the source's `typeof externalConfig === "object"` test but has no
`secret` property and so falls out at the secret check; the model
returns `none` for it directly, the same result. -/
def resolveExternalMessagesConfig (cfg : OpenClawConfig) (accountId : String) :
    Option ExternalMessagesConfig :=
  match (cfg.channels.map (fun c => c.telegram)).join with
  | none => none
  | some telegramConfig =>
    let accountConfig : JsVal :=
      match telegramConfig.accounts with
      | some accounts => getField accounts accountId
      | none => JsVal.undefined
    let externalConfig : JsVal :=
      if isNullish (jsGet accountConfig "externalMessages") then telegramConfig.externalMessages
      else jsGet accountConfig "externalMessages"
    match externalConfig with
    | JsVal.obj config =>
      (match getField config "secret" with
       | JsVal.str secret =>
         if jsTrim secret = "" then none
         else
           some
             { secret := jsTrim secret
               historyLimit :=
                 match getField config "historyLimit" with
                 | JsVal.num n => n
                 | _ =>
                   match telegramConfig.historyLimit with
                   | some n => n
                   | none =>
                     match ((cfg.messages.map (fun m => m.groupChat)).join.map
                         (fun g => g.historyLimit)).join with
                     | some n => n
                     | none => 50 }
       | _ => none)
    | _ => none

/-- The `externalMessages` block the resolver settles on for an
account (account-level block if non-nullish, else the channel-level
one), before the secret/shape checks: the "resolved level" of the
layered configuration. Gives `none` when no Telegram channel config
exists. -/
def resolvedExternalBlock (cfg : OpenClawConfig) (accountId : String) : Option JsVal :=
  match (cfg.channels.map (fun c => c.telegram)).join with
  | none => none
  | some telegramConfig =>
    let accountConfig : JsVal :=
      match telegramConfig.accounts with
      | some accounts => getField accounts accountId
      | none => JsVal.undefined
    some
      (if isNullish (jsGet accountConfig "externalMessages") then telegramConfig.externalMessages
       else jsGet accountConfig "externalMessages")

/-- Whether a configuration block carries a secret that is a string
and non-empty after trimming. -/
def hasNonEmptySecret (v : JsVal) : Bool :=
  match v with
  | JsVal.obj config =>
    match getField config "secret" with
    | JsVal.str secret => jsTrim secret != ""
    | _ => false
  | _ => false

/-- The channel-wide history-limit default
(`telegramConfig.historyLimit`). -/
def channelHistoryLimit (cfg : OpenClawConfig) : Option Int :=
  match (cfg.channels.map (fun c => c.telegram)).join with
  | some t => t.historyLimit
  | none => none

/-- The global history-limit default
(`cfg.messages?.groupChat?.historyLimit`). -/
def globalHistoryLimit (cfg : OpenClawConfig) : Option Int :=
  ((cfg.messages.map (fun m => m.groupChat)).join.map (fun g => g.historyLimit)).join

/-- The tail of the resolver once the block for the account has been
settled: shape and secret checks, then the history-limit fallback
chain. Factored out to state the resolver claims against
`resolvedExternalBlock`. -/
def resolveFromBlock (cfg : OpenClawConfig) (block : JsVal) : Option ExternalMessagesConfig :=
  match block with
  | JsVal.obj config =>
    (match getField config "secret" with
     | JsVal.str secret =>
       if jsTrim secret = "" then none
       else
         some
           { secret := jsTrim secret
             historyLimit :=
               match getField config "historyLimit" with
               | JsVal.num n => n
               | _ => (channelHistoryLimit cfg).getD ((globalHistoryLimit cfg).getD 50) }
     | _ => none)
  | _ => none

/-! ## Concrete fixtures for witness instantiation -/

/-- The spec's worked example payload, as decoded JSON fields. -/
def fields0 : List (String × JsVal) :=
  [("chatId", JsVal.num (-5001)), ("messageId", JsVal.num 42),
   ("senderName", JsVal.str "Ana"), ("senderUsername", JsVal.str "ana_x"),
   ("senderId", JsVal.num 555), ("text", JsVal.str "hi"),
   ("timestamp", JsVal.num 1700000000)]

/-- A session whose dispatch entry point always succeeds. -/
def botOK : Bot := fun _ => Except.ok ()

/-- A session whose dispatch entry point always raises. -/
def botFail : Bot := fun _ => Except.error "boom"

def cfg0 : ExternalMessagesConfig := { secret := "s3cret", historyLimit := 50 }

/-- Registry state with the `"default"` account registered. -/
def st0 : BridgeState := registerBotForExternalMessages initialBridgeState "default" botOK cfg0

/-- A well-formed authenticated POST carrying the example payload. -/
def req0 : Request :=
  { pathname := "/api/telegram/external-messages"
    method := "POST"
    queryHasToken := false
    queryHasSecret := false
    authorization := some "Bearer s3cret"
    xOpenclawToken := none
    body := Except.ok (JsVal.obj fields0) }

/-- A channel configuration whose `externalMessages` block carries no
secret at all. -/
def cfg7 : OpenClawConfig :=
  { channels := some { telegram := some { accounts := none
                                          externalMessages := JsVal.obj []
                                          historyLimit := none } }
    messages := none }

/-- A per-account map with an account-level `externalMessages`
override. -/
def accounts7 : List (String × JsVal) :=
  [("acct", JsVal.obj [("externalMessages", JsVal.obj [("secret", JsVal.str "x")])])]

/-- The configuration exhibiting the C9 counterexample: a valid secret
together with a configured history limit of `0`. -/
def cfg9 : OpenClawConfig :=
  { channels := some { telegram := some { accounts := none
                                          externalMessages := JsVal.obj
                                            [("secret", JsVal.str "s"), ("historyLimit", JsVal.num 0)]
                                          historyLimit := none } }
    messages := none }

/-- The resolver factors through the resolved block. -/
lemma resolve_decomposition (cfg : OpenClawConfig) (aid : String) :
    resolveExternalMessagesConfig cfg aid =
      match resolvedExternalBlock cfg aid with
      | some block => resolveFromBlock cfg block
      | none => none := by
  rcases cfg with ⟨ch, ms⟩
  rcases ch with _ | ⟨tel⟩
  · rfl
  rcases tel with _ | tc
  · rfl
  simp only [resolveExternalMessagesConfig, resolvedExternalBlock, resolveFromBlock,
    channelHistoryLimit, globalHistoryLimit, Option.map_some', Option.join, Option.some_bind,
    id_eq]
  generalize (if isNullish (jsGet
      (match tc.accounts with
       | some accounts => getField accounts aid
       | none => JsVal.undefined) "externalMessages") = true
    then tc.externalMessages
    else jsGet
      (match tc.accounts with
       | some accounts => getField accounts aid
       | none => JsVal.undefined) "externalMessages") = E
  cases E <;> try rfl
  next config =>
  rcases h1 : getField config "secret" with _ | _ | b | n | s | o | a <;> simp only [h1] <;>
    try rfl
  by_cases hs : jsTrim s = ""
  · simp [hs]
  · simp only [if_neg hs]
    rcases h2 : getField config "historyLimit" with _ | _ | b2 | n2 | s2 | o2 | a2 <;>
      simp only [h2] <;> try rfl
    all_goals try (rcases h3 : tc.historyLimit with _ | n3 <;>
      simp only [h3, Option.getD_some, Option.getD_none] <;> try rfl)
    all_goals rcases h4 : ((Option.map (fun g => g.historyLimit)
        ((Option.map (fun m => m.groupChat) ms).bind fun a => a)).bind fun a => a) with _ | n4 <;>
      simp only [h4, Option.getD_some, Option.getD_none] <;> try rfl

/-! ## Registry lemmas -/

lemma lookup_mapSet_self {α : Type} (m : List (String × α)) (k : String) (v : α) :
    (mapSet m k v).lookup k = some v := by
  induction m with
  | nil => simp [mapSet, List.lookup]
  | cons h t ih =>
    obtain ⟨k', v'⟩ := h
    by_cases hk : k' = k
    · simp [mapSet, hk, List.lookup]
    · simp only [mapSet, if_neg hk, List.lookup]
      rw [beq_false_of_ne (fun he => hk he.symm)]
      exact ih

lemma lookup_mapSet_ne {α : Type} (m : List (String × α)) (k k' : String) (v : α)
    (h : k' ≠ k) : (mapSet m k v).lookup k' = m.lookup k' := by
  induction m with
  | nil => simp [mapSet, List.lookup, beq_false_of_ne h]
  | cons hd t ih =>
    obtain ⟨k'', v''⟩ := hd
    by_cases hk : k'' = k
    · subst hk
      simp [mapSet, List.lookup, beq_false_of_ne h]
    · simp only [mapSet, if_neg hk, List.lookup]
      cases hbe : (k' == k'') <;> simp [ih]

lemma lookup_mapDelete_self {α : Type} (m : List (String × α)) (k : String) :
    (mapDelete m k).lookup k = none := by
  induction m with
  | nil => simp [mapDelete, List.lookup]
  | cons h t ih =>
    obtain ⟨k', v'⟩ := h
    by_cases hk : k' = k
    · simpa [mapDelete, List.filter, hk] using ih
    · simp only [mapDelete, List.filter] at ih ⊢
      rw [show (k' != k) = true by simpa using hk]
      simp only [List.lookup]
      rw [beq_false_of_ne (fun he => hk he.symm)]
      exact ih

lemma lookup_mapDelete_ne {α : Type} (m : List (String × α)) (k k' : String)
    (h : k' ≠ k) : (mapDelete m k).lookup k' = m.lookup k' := by
  induction m with
  | nil => simp [mapDelete]
  | cons hd t ih =>
    obtain ⟨k'', v''⟩ := hd
    by_cases hk : k'' = k
    · subst hk
      simp only [mapDelete, List.filter, bne_self_eq_false]
      simp only [mapDelete] at ih
      rw [ih, List.lookup, beq_false_of_ne h]
    · simp only [mapDelete, List.filter] at ih ⊢
      rw [show (k'' != k) = true by simpa using hk]
      simp only [List.lookup]
      cases hbe : (k' == k'') <;> simp [ih]

/-! ## Allocation lemmas -/

/-- One handler invocation either allocates nothing and leaves the
counter alone, or allocates exactly the current counter value as an
update id and decrements the counter. -/
lemma handler_alloc_spec (st : BridgeState) (req : Request) :
    ((handleExternalMessagesRequest st req).dispatched = [] ∧
     (handleExternalMessagesRequest st req).state.syntheticUpdateCounter =
       st.syntheticUpdateCounter) ∨
    ((handleExternalMessagesRequest st req).dispatched.map (fun u => u.update_id) =
       [st.syntheticUpdateCounter] ∧
     (handleExternalMessagesRequest st req).state.syntheticUpdateCounter =
       st.syntheticUpdateCounter - 1) := by
  unfold handleExternalMessagesRequest
  repeat' split
  all_goals try simp [sendJson, buildSyntheticUpdate]
  all_goals try (split <;> try simp [sendJson, buildSyntheticUpdate])
  all_goals try (split <;> try simp [sendJson, buildSyntheticUpdate])
  all_goals try (split <;> try simp [sendJson, buildSyntheticUpdate])
  all_goals try (split <;> try simp [sendJson, buildSyntheticUpdate])
  all_goals simp [sendJson, buildSyntheticUpdate]

/-- The single-action version of the allocation invariant. -/
lemma stepAction_spec (st : BridgeState) (a : BridgeAction) :
    ((stepAction st a).2 = [] ∧
     (stepAction st a).1.syntheticUpdateCounter = st.syntheticUpdateCounter) ∨
    ((stepAction st a).2 = [st.syntheticUpdateCounter] ∧
     (stepAction st a).1.syntheticUpdateCounter = st.syntheticUpdateCounter - 1) := by
  cases a with
  | register accountId bot config =>
    left
    simp [stepAction, registerBotForExternalMessages]
  | unregister accountId =>
    left
    simp [stepAction, unregisterBotForExternalMessages]
  | request req =>
    rcases handler_alloc_spec st req with ⟨h1, h2⟩ | ⟨h1, h2⟩
    · left
      constructor <;> simp [stepAction, h1, h2]
    · right
      constructor <;> simp [stepAction, h1, h2]

/-- The run invariant: the counter never increases, every allocated id
lies strictly above the final counter and at or below the starting
counter, and the allocated ids are strictly decreasing in allocation
order. -/
lemma runActions_spec (actions : List BridgeAction) : ∀ st : BridgeState,
    (runActions st actions).1.syntheticUpdateCounter ≤ st.syntheticUpdateCounter ∧
    (∀ i ∈ (runActions st actions).2,
      (runActions st actions).1.syntheticUpdateCounter < i ∧
      i ≤ st.syntheticUpdateCounter) ∧
    List.Pairwise (fun a b => b < a) (runActions st actions).2 := by
  induction actions with
  | nil =>
    intro st
    simp [runActions]
  | cons a rest ih =>
    intro st
    obtain ⟨ihle, ihmem, ihpw⟩ := ih (stepAction st a).1
    have hunfold : runActions st (a :: rest) =
        ((runActions (stepAction st a).1 rest).1,
         (stepAction st a).2 ++ (runActions (stepAction st a).1 rest).2) := rfl
    rcases stepAction_spec st a with ⟨h1, h2⟩ | ⟨h1, h2⟩
    · rw [h2] at ihle ihmem
      refine ⟨?_, ?_, ?_⟩
      · rw [hunfold]
        exact ihle
      · intro i hi
        rw [hunfold] at hi ⊢
        simp only [h1, List.nil_append] at hi
        exact ihmem i hi
      · rw [hunfold]
        simp only [h1, List.nil_append]
        exact ihpw
    · rw [h2] at ihle ihmem
      refine ⟨?_, ?_, ?_⟩
      · rw [hunfold]
        dsimp only
        omega
      · intro i hi
        rw [hunfold] at hi ⊢
        dsimp only at hi ⊢
        simp only [h1, List.cons_append, List.nil_append, List.mem_cons] at hi
        rcases hi with rfl | hi
        · constructor <;> omega
        · obtain ⟨hlt, hle'⟩ := ihmem i hi
          constructor <;> omega
      · rw [hunfold]
        dsimp only
        simp only [h1, List.cons_append, List.nil_append]
        refine List.Pairwise.cons ?_ ihpw
        intro b hb
        have := (ihmem b hb).2
        omega

/-! ## Claim theorems -/

/-- **C8.** For every request to the endpoint path via POST whose query
string carries a `token` or `secret` parameter, the handler responds
400 with the query-parameter error — whatever the headers and body
hold, so before token extraction, body reading and validation — and
no dispatch occurs and the state is unchanged. -/
theorem C8_query_credentials_rejected (st : BridgeState) (req : Request)
    (hpath : req.pathname = "/api/telegram/external-messages")
    (hmethod : req.method = "POST")
    (hq : req.queryHasToken = true ∨ req.queryHasSecret = true) :
    (handleExternalMessagesRequest st req).response =
      some { status := 400
             body := RespBody.jsonError
               "Token must be provided via Authorization: Bearer <token> or X-OpenClaw-Token header (query parameters are not allowed)" } ∧
    (handleExternalMessagesRequest st req).dispatched = [] ∧
    (handleExternalMessagesRequest st req).state = st := by
  have hcond : (req.queryHasToken || req.queryHasSecret) = true := by
    rcases hq with h | h <;> simp [h]
  unfold handleExternalMessagesRequest
  simp [hpath, hmethod, hcond, sendJson]

/-- Witness for C8 at a concrete request. -/
theorem C8_witness :
    (handleExternalMessagesRequest st0 { req0 with queryHasToken := true }).response =
      some { status := 400
             body := RespBody.jsonError
               "Token must be provided via Authorization: Bearer <token> or X-OpenClaw-Token header (query parameters are not allowed)" } ∧
    (handleExternalMessagesRequest st0 { req0 with queryHasToken := true }).dispatched = [] ∧
    (handleExternalMessagesRequest st0 { req0 with queryHasToken := true }).state = st0 :=
  C8_query_credentials_rejected st0 { req0 with queryHasToken := true } rfl rfl (Or.inl rfl)

/-- **C6.** After `unregister(accountId)`, every request resolving to
that account — whatever credential it presents — gets a 503 response
and no dispatch occurs; and `register` installs the new session handle
and config for its account (last-write-wins), leaving other accounts'
entries unchanged. -/
theorem C6_unregister_503_register_lww (st : BridgeState) (req : Request)
    (fields : List (String × JsVal)) (token accountId : String)
    (hpath : req.pathname = "/api/telegram/external-messages")
    (hmethod : req.method = "POST")
    (hq1 : req.queryHasToken = false) (hq2 : req.queryHasSecret = false)
    (hex : extractToken req.authorization req.xOpenclawToken = some token)
    (htok : token ≠ "")
    (hbody : req.body = Except.ok (JsVal.obj fields))
    (hval : validatePayload (JsVal.obj fields) = true)
    (hacc : resolveAccountId fields = some accountId) :
    ((handleExternalMessagesRequest (unregisterBotForExternalMessages st accountId) req).response =
        some { status := 503
               body := RespBody.jsonError
                 ("No Telegram bot running for account \"" ++ accountId ++ "\"") } ∧
      (handleExternalMessagesRequest (unregisterBotForExternalMessages st accountId) req).dispatched
        = []) ∧
    (∀ (st₂ : BridgeState) (aid : String) (b : Bot) (c : ExternalMessagesConfig),
      (registerBotForExternalMessages st₂ aid b c).botRegistry.lookup aid = some b ∧
      (registerBotForExternalMessages st₂ aid b c).configRegistry.lookup aid = some c ∧
      (∀ k, k ≠ aid →
        (registerBotForExternalMessages st₂ aid b c).botRegistry.lookup k =
          st₂.botRegistry.lookup k ∧
        (registerBotForExternalMessages st₂ aid b c).configRegistry.lookup k =
          st₂.configRegistry.lookup k)) := by
  constructor
  · unfold handleExternalMessagesRequest
    simp [hpath, hmethod, hq1, hq2, hex, htok, hbody, hval, hacc, sendJson,
      unregisterBotForExternalMessages, lookup_mapDelete_self]
  · intro st₂ aid b c
    refine ⟨?_, ?_, ?_⟩
    · simpa [registerBotForExternalMessages] using lookup_mapSet_self st₂.botRegistry aid b
    · simpa [registerBotForExternalMessages] using lookup_mapSet_self st₂.configRegistry aid c
    · intro k hk
      constructor
      · simpa [registerBotForExternalMessages] using lookup_mapSet_ne st₂.botRegistry aid k b hk
      · simpa [registerBotForExternalMessages] using
          lookup_mapSet_ne st₂.configRegistry aid k c hk

/-- Witness for C6 at a concrete unregistered account. -/
theorem C6_witness :
    ((handleExternalMessagesRequest (unregisterBotForExternalMessages st0 "default") req0).response =
        some { status := 503
               body := RespBody.jsonError
                 ("No Telegram bot running for account \"" ++ "default" ++ "\"") } ∧
      (handleExternalMessagesRequest
          (unregisterBotForExternalMessages st0 "default") req0).dispatched = []) ∧
    (∀ (st₂ : BridgeState) (aid : String) (b : Bot) (c : ExternalMessagesConfig),
      (registerBotForExternalMessages st₂ aid b c).botRegistry.lookup aid = some b ∧
      (registerBotForExternalMessages st₂ aid b c).configRegistry.lookup aid = some c ∧
      (∀ k, k ≠ aid →
        (registerBotForExternalMessages st₂ aid b c).botRegistry.lookup k =
          st₂.botRegistry.lookup k ∧
        (registerBotForExternalMessages st₂ aid b c).configRegistry.lookup k =
          st₂.configRegistry.lookup k)) :=
  C6_unregister_503_register_lww st0 req0 fields0 "s3cret" "default"
    rfl rfl rfl rfl rfl (by decide) rfl rfl rfl

/-- **C2.** For every request that passes validation and account
lookup, the handler compares the presented credential to the
registered secret by exact string equality: a differing credential
gets a 401 with no dispatch and no state change, an equal credential
passes the check and the dispatch call is made; and every extracted
credential comes from the `Authorization: Bearer` header (the rest of
the header, trimmed) or from the `X-OpenClaw-Token` header
(trimmed). -/
theorem C2_credential_exact_comparison (st : BridgeState) (req : Request)
    (fields : List (String × JsVal)) (token accountId : String)
    (bot : Bot) (config : ExternalMessagesConfig)
    (hpath : req.pathname = "/api/telegram/external-messages")
    (hmethod : req.method = "POST")
    (hq1 : req.queryHasToken = false) (hq2 : req.queryHasSecret = false)
    (hex : extractToken req.authorization req.xOpenclawToken = some token)
    (htok : token ≠ "")
    (hbody : req.body = Except.ok (JsVal.obj fields))
    (hval : validatePayload (JsVal.obj fields) = true)
    (hacc : resolveAccountId fields = some accountId)
    (hbot : st.botRegistry.lookup accountId = some bot)
    (hcfg : st.configRegistry.lookup accountId = some config) :
    (token ≠ config.secret →
      (handleExternalMessagesRequest st req).response =
        some { status := 401, body := RespBody.jsonError "Invalid authentication token" } ∧
      (handleExternalMessagesRequest st req).dispatched = [] ∧
      (handleExternalMessagesRequest st req).state = st) ∧
    (token = config.secret →
      (handleExternalMessagesRequest st req).dispatched =
        [(buildSyntheticUpdate fields st.syntheticUpdateCounter).1]) ∧
    (∀ (au xt : Option String) (t : String), extractToken au xt = some t →
      (∃ a, au = some a ∧ jsStartsWith a "Bearer " = true ∧ t = jsTrim (jsSlice a 7)) ∨
      (∃ x, xt = some x ∧ t = jsTrim x)) := by
  refine ⟨?_, ?_, ?_⟩
  · intro hne
    unfold handleExternalMessagesRequest
    simp [hpath, hmethod, hq1, hq2, hex, htok, hbody, hval, hacc, hbot, hcfg, hne, sendJson]
  · intro heq
    subst heq
    unfold handleExternalMessagesRequest
    simp only [hpath, hmethod, hq1, hq2, hex, hbody, hval, hacc, hbot, hcfg]
    cases hbu : bot (buildSyntheticUpdate fields st.syntheticUpdateCounter).1 with
    | error e => simp [hbu, htok, sendJson]
    | ok u => simp [hbu, htok, sendJson]
  · intro au xt t h
    cases au with
    | none =>
      cases xt with
      | none => simp [extractToken] at h
      | some x =>
        simp [extractToken] at h
        exact Or.inr ⟨x, rfl, h.symm⟩
    | some a =>
      by_cases hb : jsStartsWith a "Bearer " = true
      · simp [extractToken, hb] at h
        exact Or.inl ⟨a, rfl, hb, h.symm⟩
      · cases xt with
        | none => simp [extractToken, hb] at h
        | some x =>
          simp [extractToken, hb] at h
          exact Or.inr ⟨x, rfl, h.symm⟩

/-- Witness for C2 at a concrete mismatching credential. -/
theorem C2_witness :
    ("wrong" ≠ cfg0.secret →
      (handleExternalMessagesRequest st0 { req0 with authorization := some "Bearer wrong" }).response =
        some { status := 401, body := RespBody.jsonError "Invalid authentication token" } ∧
      (handleExternalMessagesRequest st0
          { req0 with authorization := some "Bearer wrong" }).dispatched = [] ∧
      (handleExternalMessagesRequest st0
          { req0 with authorization := some "Bearer wrong" }).state = st0) ∧
    ("wrong" = cfg0.secret →
      (handleExternalMessagesRequest st0 { req0 with authorization := some "Bearer wrong" }).dispatched =
        [(buildSyntheticUpdate fields0 st0.syntheticUpdateCounter).1]) ∧
    (∀ (au xt : Option String) (t : String), extractToken au xt = some t →
      (∃ a, au = some a ∧ jsStartsWith a "Bearer " = true ∧ t = jsTrim (jsSlice a 7)) ∨
      (∃ x, xt = some x ∧ t = jsTrim x)) :=
  C2_credential_exact_comparison st0 { req0 with authorization := some "Bearer wrong" }
    fields0 "wrong" "default" botOK cfg0 rfl rfl rfl rfl rfl (by decide) rfl rfl rfl rfl rfl

/-- **C4.** For every validated, authenticated request the handler
calls the session's dispatch entry point exactly once: if the dispatch
raises, the response is a 500 carrying the failure's message; if it
succeeds, the response is a 200 echoing the synthetic, message and
chat identifiers. Moreover no handler invocation, on any state and any
request, ever makes more than one dispatch call (no retry). -/
theorem C4_at_most_once_dispatch (st : BridgeState) (req : Request)
    (fields : List (String × JsVal)) (accountId : String)
    (bot : Bot) (config : ExternalMessagesConfig)
    (hpath : req.pathname = "/api/telegram/external-messages")
    (hmethod : req.method = "POST")
    (hq1 : req.queryHasToken = false) (hq2 : req.queryHasSecret = false)
    (hex : extractToken req.authorization req.xOpenclawToken = some config.secret)
    (htok : config.secret ≠ "")
    (hbody : req.body = Except.ok (JsVal.obj fields))
    (hval : validatePayload (JsVal.obj fields) = true)
    (hacc : resolveAccountId fields = some accountId)
    (hbot : st.botRegistry.lookup accountId = some bot)
    (hcfg : st.configRegistry.lookup accountId = some config) :
    (handleExternalMessagesRequest st req).dispatched =
      [(buildSyntheticUpdate fields st.syntheticUpdateCounter).1] ∧
    (∀ m, bot (buildSyntheticUpdate fields st.syntheticUpdateCounter).1 = Except.error m →
      (handleExternalMessagesRequest st req).response =
        some { status := 500, body := RespBody.jsonError ("Processing failed: " ++ m) }) ∧
    (∀ x, bot (buildSyntheticUpdate fields st.syntheticUpdateCounter).1 = Except.ok x →
      (handleExternalMessagesRequest st req).response =
        some { status := 200
               body := RespBody.jsonOk
                 (buildSyntheticUpdate fields st.syntheticUpdateCounter).1.update_id
                 (getField fields "messageId") (getField fields "chatId") }) ∧
    (∀ (st' : BridgeState) (req' : Request),
      (handleExternalMessagesRequest st' req').dispatched.length ≤ 1) := by
  have hmain :
      handleExternalMessagesRequest st req =
        match bot (buildSyntheticUpdate fields st.syntheticUpdateCounter).1 with
        | Except.error errMsg =>
          { sendJson { st with
                syntheticUpdateCounter := (buildSyntheticUpdate fields st.syntheticUpdateCounter).2 }
              500 (RespBody.jsonError ("Processing failed: " ++ errMsg)) with
            dispatched := [(buildSyntheticUpdate fields st.syntheticUpdateCounter).1] }
        | Except.ok _ =>
          { sendJson { st with
                syntheticUpdateCounter := (buildSyntheticUpdate fields st.syntheticUpdateCounter).2 }
              200 (RespBody.jsonOk (buildSyntheticUpdate fields st.syntheticUpdateCounter).1.update_id
                (getField fields "messageId") (getField fields "chatId")) with
            dispatched := [(buildSyntheticUpdate fields st.syntheticUpdateCounter).1] } := by
    unfold handleExternalMessagesRequest
    simp [hpath, hmethod, hq1, hq2, hex, htok, hbody, hval, hacc, hbot, hcfg]
  refine ⟨?_, ?_, ?_, ?_⟩
  · rw [hmain]
    cases hbu : bot (buildSyntheticUpdate fields st.syntheticUpdateCounter).1 <;>
      simp [hbu, sendJson]
  · intro m hm
    rw [hmain, hm]
    simp [sendJson]
  · intro x hx
    rw [hmain, hx]
    simp [sendJson]
  · intro st' req'
    unfold handleExternalMessagesRequest
    repeat' split
    all_goals try simp [sendJson]
    all_goals (split <;> try simp [sendJson])
    all_goals (split <;> try simp [sendJson])
    all_goals (split <;> try simp [sendJson])
    all_goals (split <;> try simp [sendJson])

/-- Witness for C4 at the concrete registered account and matching
credential. -/
theorem C4_witness :
    (handleExternalMessagesRequest st0 req0).dispatched =
      [(buildSyntheticUpdate fields0 st0.syntheticUpdateCounter).1] ∧
    (∀ m, botOK (buildSyntheticUpdate fields0 st0.syntheticUpdateCounter).1 = Except.error m →
      (handleExternalMessagesRequest st0 req0).response =
        some { status := 500, body := RespBody.jsonError ("Processing failed: " ++ m) }) ∧
    (∀ x, botOK (buildSyntheticUpdate fields0 st0.syntheticUpdateCounter).1 = Except.ok x →
      (handleExternalMessagesRequest st0 req0).response =
        some { status := 200
               body := RespBody.jsonOk
                 (buildSyntheticUpdate fields0 st0.syntheticUpdateCounter).1.update_id
                 (getField fields0 "messageId") (getField fields0 "chatId") }) ∧
    (∀ (st' : BridgeState) (req' : Request),
      (handleExternalMessagesRequest st' req').dispatched.length ≤ 1) :=
  C4_at_most_once_dispatch st0 req0 fields0 "default" botOK cfg0
    rfl rfl rfl rfl rfl (by decide) rfl rfl rfl rfl rfl

/-- **C3.** Every request body failing validation gets a 400 with the
single aggregate error naming the required field set, and no dispatch
occurs; a body validates exactly when it is an object with non-null
`chatId` and `messageId` (numeric or string both accepted, with no
further normalization), a `senderName` that is a string non-empty
after trimming, a string `text`, and a numeric `timestamp`; and every
non-object body fails validation. -/
theorem C3_validation_400 (st : BridgeState) (req : Request) (v : JsVal) (token : String)
    (hpath : req.pathname = "/api/telegram/external-messages")
    (hmethod : req.method = "POST")
    (hq1 : req.queryHasToken = false) (hq2 : req.queryHasSecret = false)
    (hex : extractToken req.authorization req.xOpenclawToken = some token)
    (htok : token ≠ "")
    (hbody : req.body = Except.ok v)
    (hval : validatePayload v = false) :
    ((handleExternalMessagesRequest st req).response =
        some { status := 400
               body := RespBody.jsonError
                 "Invalid payload: required fields are chatId, messageId, senderName, text, timestamp" } ∧
      (handleExternalMessagesRequest st req).dispatched = [] ∧
      (handleExternalMessagesRequest st req).state = st) ∧
    (∀ fields : List (String × JsVal),
      validatePayload (JsVal.obj fields) = true ↔
        (isNullish (getField fields "chatId") = false ∧
         isNullish (getField fields "messageId") = false ∧
         (∃ s, getField fields "senderName" = JsVal.str s ∧ jsTrim s ≠ "") ∧
         (∃ s, getField fields "text" = JsVal.str s) ∧
         (∃ n, getField fields "timestamp" = JsVal.num n))) ∧
    (∀ w : JsVal, (∀ fs, w ≠ JsVal.obj fs) → validatePayload w = false) := by
  refine ⟨?_, ?_, ?_⟩
  · unfold handleExternalMessagesRequest
    simp [hpath, hmethod, hq1, hq2, hex, htok, hbody, hval, sendJson]
  · intro fields
    constructor
    · intro h
      simp only [validatePayload, checkPayloadFields, Bool.and_eq_true, Bool.not_eq_true'] at h
      obtain ⟨⟨⟨⟨h1, h2⟩, h3⟩, h4⟩, h5⟩ := h
      refine ⟨h1, h2, ?_, ?_, ?_⟩
      · cases hs : getField fields "senderName" <;> rw [hs] at h3 <;> simp_all
      · cases hs : getField fields "text" <;> rw [hs] at h4 <;> simp_all
      · cases hs : getField fields "timestamp" <;> rw [hs] at h5 <;> simp_all
    · rintro ⟨h1, h2, ⟨s, hs, hsne⟩, ⟨t, ht⟩, ⟨n, hn⟩⟩
      simp [validatePayload, checkPayloadFields, h1, h2, hs, ht, hn, hsne]
  · intro w hw
    cases w <;> first
      | rfl
      | exact absurd rfl (hw _)

/-- Witness for C3 at a concrete body missing most required fields. -/
theorem C3_witness :
    ((handleExternalMessagesRequest st0
        { req0 with body := Except.ok (JsVal.obj [("chatId", JsVal.num 7)]) }).response =
        some { status := 400
               body := RespBody.jsonError
                 "Invalid payload: required fields are chatId, messageId, senderName, text, timestamp" } ∧
      (handleExternalMessagesRequest st0
        { req0 with body := Except.ok (JsVal.obj [("chatId", JsVal.num 7)]) }).dispatched = [] ∧
      (handleExternalMessagesRequest st0
        { req0 with body := Except.ok (JsVal.obj [("chatId", JsVal.num 7)]) }).state = st0) ∧
    (∀ fields : List (String × JsVal),
      validatePayload (JsVal.obj fields) = true ↔
        (isNullish (getField fields "chatId") = false ∧
         isNullish (getField fields "messageId") = false ∧
         (∃ s, getField fields "senderName" = JsVal.str s ∧ jsTrim s ≠ "") ∧
         (∃ s, getField fields "text" = JsVal.str s) ∧
         (∃ n, getField fields "timestamp" = JsVal.num n))) ∧
    (∀ w : JsVal, (∀ fs, w ≠ JsVal.obj fs) → validatePayload w = false) :=
  C3_validation_400 st0 { req0 with body := Except.ok (JsVal.obj [("chatId", JsVal.num 7)]) }
    (JsVal.obj [("chatId", JsVal.num 7)]) "s3cret" rfl rfl rfl rfl rfl (by decide) rfl rfl

/-- **C5.** For every validated payload the builder classifies the
chat as group-like exactly when the numerically coerced chat
identifier is negative: then it emits a supergroup descriptor with the
synthesized title and no first-name; otherwise (non-negative or
non-numeric coercion) a private descriptor carrying the sender's
trimmed display name and no title. The two descriptors are mutually
exclusive and determined solely by the chat identifier. -/
theorem C5_chat_classification (fields : List (String × JsVal)) (c : Int)
    (hval : validatePayload (JsVal.obj fields) = true) :
    (∀ n, jsToNumber (getField fields "chatId") = some n → n < 0 →
      (buildSyntheticUpdate fields c).1.message.chat =
        { id := some n, type := ChatType.supergroup,
          title := some ("Chat " ++ toString n), first_name := none }) ∧
    (∀ n, jsToNumber (getField fields "chatId") = some n → 0 ≤ n →
      (buildSyntheticUpdate fields c).1.message.chat =
        { id := some n, type := ChatType.«private», title := none,
          first_name := some (jsTrim (asStr (getField fields "senderName"))) }) ∧
    (jsToNumber (getField fields "chatId") = none →
      (buildSyntheticUpdate fields c).1.message.chat =
        { id := none, type := ChatType.«private», title := none,
          first_name := some (jsTrim (asStr (getField fields "senderName"))) }) ∧
    ((buildSyntheticUpdate fields c).1.message.chat.type = ChatType.supergroup ↔
      ∃ n, jsToNumber (getField fields "chatId") = some n ∧ n < 0) := by
  refine ⟨?_, ?_, ?_, ?_⟩
  · intro n hn hneg
    simp [buildSyntheticUpdate, hn, hneg, numToJsString]
  · intro n hn hnonneg
    simp [buildSyntheticUpdate, hn, not_lt.mpr hnonneg]
  · intro hn
    simp [buildSyntheticUpdate, hn]
  · constructor
    · intro h
      rcases hn : jsToNumber (getField fields "chatId") with _ | n
      · rw [show (buildSyntheticUpdate fields c).1.message.chat =
            { id := none, type := ChatType.«private», title := none,
              first_name := some (jsTrim (asStr (getField fields "senderName"))) } from by
            simp [buildSyntheticUpdate, hn]] at h
        simp at h
      · by_cases hneg : n < 0
        · exact ⟨n, rfl, hneg⟩
        · rw [show (buildSyntheticUpdate fields c).1.message.chat =
              { id := some n, type := ChatType.«private», title := none,
                first_name := some (jsTrim (asStr (getField fields "senderName"))) } from by
              simp [buildSyntheticUpdate, hn, hneg]] at h
          simp at h
    · rintro ⟨n, hn, hneg⟩
      simp [buildSyntheticUpdate, hn, hneg]

/-- Witness for C5 at the spec's group example (`chatId = -5001`). -/
theorem C5_witness :
    (∀ n, jsToNumber (getField fields0 "chatId") = some n → n < 0 →
      (buildSyntheticUpdate fields0 (-1)).1.message.chat =
        { id := some n, type := ChatType.supergroup,
          title := some ("Chat " ++ toString n), first_name := none }) ∧
    (∀ n, jsToNumber (getField fields0 "chatId") = some n → 0 ≤ n →
      (buildSyntheticUpdate fields0 (-1)).1.message.chat =
        { id := some n, type := ChatType.«private», title := none,
          first_name := some (jsTrim (asStr (getField fields0 "senderName"))) }) ∧
    (jsToNumber (getField fields0 "chatId") = none →
      (buildSyntheticUpdate fields0 (-1)).1.message.chat =
        { id := none, type := ChatType.«private», title := none,
          first_name := some (jsTrim (asStr (getField fields0 "senderName"))) }) ∧
    ((buildSyntheticUpdate fields0 (-1)).1.message.chat.type = ChatType.supergroup ↔
      ∃ n, jsToNumber (getField fields0 "chatId") = some n ∧ n < 0) :=
  C5_chat_classification fields0 (-1) rfl

/-- **C10.** The builder attaches reply linkage exactly when the
payload's `replyToMessageId` is truthy and thread linkage exactly when
`topicId` is truthy; supplying a falsy reply target (numeric `0`,
empty string) or a falsy topic id (`0`) yields an update identical to
one built from the payload with those fields omitted. -/
theorem C10_linkage_truthiness (fields : List (String × JsVal)) (c : Int) :
    (jsTruthy (getField fields "replyToMessageId") = true →
      (buildSyntheticUpdate fields c).1.message.reply_to_message =
        some { message_id := jsToNumber (getField fields "replyToMessageId")
               date := asNum (getField fields "timestamp")
               chat := (buildSyntheticUpdate fields c).1.message.chat }) ∧
    (jsTruthy (getField fields "replyToMessageId") = false →
      (buildSyntheticUpdate fields c).1.message.reply_to_message = none) ∧
    (jsTruthy (getField fields "topicId") = true →
      (buildSyntheticUpdate fields c).1.message.message_thread_id =
        some (getField fields "topicId")) ∧
    (jsTruthy (getField fields "topicId") = false →
      (buildSyntheticUpdate fields c).1.message.message_thread_id = none) ∧
    (∀ (rv tv : JsVal) (fs : List (String × JsVal)) (c' : Int),
      jsTruthy rv = false → jsTruthy tv = false →
      fs.lookup "replyToMessageId" = none → fs.lookup "topicId" = none →
      buildSyntheticUpdate (("replyToMessageId", rv) :: ("topicId", tv) :: fs) c' =
        buildSyntheticUpdate fs c') := by
  refine ⟨?_, ?_, ?_, ?_, ?_⟩
  · intro h
    simp [buildSyntheticUpdate, h]
  · intro h
    simp [buildSyntheticUpdate, h]
  · intro h
    simp [buildSyntheticUpdate, h]
  · intro h
    simp [buildSyntheticUpdate, h]
  · intro rv tv fs c' hrv htv hf1 hf2
    have hget : ∀ k, k ≠ "replyToMessageId" → k ≠ "topicId" →
        getField (("replyToMessageId", rv) :: ("topicId", tv) :: fs) k = getField fs k := by
      intro k hk1 hk2
      simp [getField, List.lookup, beq_false_of_ne hk1, beq_false_of_ne hk2]
    have hrv' : getField (("replyToMessageId", rv) :: ("topicId", tv) :: fs)
        "replyToMessageId" = rv := by
      simp [getField, List.lookup]
    have htv' : getField (("replyToMessageId", rv) :: ("topicId", tv) :: fs) "topicId" = tv := by
      simp [getField, List.lookup]
    have hrv0 : getField fs "replyToMessageId" = JsVal.undefined := by
      simp [getField, hf1]
    have htv0 : getField fs "topicId" = JsVal.undefined := by
      simp [getField, hf2]
    unfold buildSyntheticUpdate
    rw [hrv', htv', hrv0, htv0,
      hget "chatId" (by decide) (by decide),
      hget "messageId" (by decide) (by decide),
      hget "senderId" (by decide) (by decide),
      hget "senderName" (by decide) (by decide),
      hget "senderUsername" (by decide) (by decide),
      hget "timestamp" (by decide) (by decide),
      hget "text" (by decide) (by decide)]
    simp [hrv, htv, show jsTruthy JsVal.undefined = false from rfl]

/-- Witness for C10: the example payload extended with a numeric-zero
reply target and topic id builds the same update as without them. -/
theorem C10_witness :
    (jsTruthy (getField fields0 "replyToMessageId") = true →
      (buildSyntheticUpdate fields0 (-7)).1.message.reply_to_message =
        some { message_id := jsToNumber (getField fields0 "replyToMessageId")
               date := asNum (getField fields0 "timestamp")
               chat := (buildSyntheticUpdate fields0 (-7)).1.message.chat }) ∧
    (jsTruthy (getField fields0 "replyToMessageId") = false →
      (buildSyntheticUpdate fields0 (-7)).1.message.reply_to_message = none) ∧
    (jsTruthy (getField fields0 "topicId") = true →
      (buildSyntheticUpdate fields0 (-7)).1.message.message_thread_id =
        some (getField fields0 "topicId")) ∧
    (jsTruthy (getField fields0 "topicId") = false →
      (buildSyntheticUpdate fields0 (-7)).1.message.message_thread_id = none) ∧
    (∀ (rv tv : JsVal) (fs : List (String × JsVal)) (c' : Int),
      jsTruthy rv = false → jsTruthy tv = false →
      fs.lookup "replyToMessageId" = none → fs.lookup "topicId" = none →
      buildSyntheticUpdate (("replyToMessageId", rv) :: ("topicId", tv) :: fs) c' =
        buildSyntheticUpdate fs c') :=
  C10_linkage_truthiness fields0 (-7)

/-- **C7.** The resolver returns `absent` whenever the block it
settles on for the account carries no non-empty string secret,
regardless of any other settings; and when the account-level
`externalMessages` block exists (is non-nullish), the channel-level
block is ignored entirely: the result does not depend on it. -/
theorem C7_secret_gate_and_override :
    (∀ (cfg : OpenClawConfig) (aid : String),
      hasNonEmptySecret ((resolvedExternalBlock cfg aid).getD JsVal.undefined) = false →
      resolveExternalMessagesConfig cfg aid = none) ∧
    (∀ (accounts : List (String × JsVal)) (aid : String) (em em' : JsVal)
       (hl : Option Int) (msgs : Option MessagesConfig),
      isNullish (jsGet (getField accounts aid) "externalMessages") = false →
      resolveExternalMessagesConfig
        { channels := some { telegram := some { accounts := some accounts
                                                externalMessages := em
                                                historyLimit := hl } }
          messages := msgs } aid =
      resolveExternalMessagesConfig
        { channels := some { telegram := some { accounts := some accounts
                                                externalMessages := em'
                                                historyLimit := hl } }
          messages := msgs } aid) := by
  constructor
  · intro cfg aid h
    rw [resolve_decomposition]
    rcases hb : resolvedExternalBlock cfg aid with _ | block
    · rfl
    · rw [hb] at h
      simp only [Option.getD_some] at h
      cases block <;> try rfl
      next config =>
      rcases hsec : getField config "secret" with _ | _ | b | n | s | o | a <;>
        simp_all [resolveFromBlock, hasNonEmptySecret]
  · intro accounts aid em em' hl msgs h
    rw [resolve_decomposition, resolve_decomposition]
    have hb : ∀ em0 : JsVal,
        resolvedExternalBlock
          { channels := some { telegram := some { accounts := some accounts
                                                  externalMessages := em0
                                                  historyLimit := hl } }
            messages := msgs } aid =
          some (jsGet (getField accounts aid) "externalMessages") := by
      intro em0
      simp [resolvedExternalBlock, h]
    rw [hb em, hb em']
    rfl

/-- Witness for C7 at a concrete secretless block and a concrete
account-level override. -/
theorem C7_witness :
    (hasNonEmptySecret ((resolvedExternalBlock cfg7 "default").getD JsVal.undefined) = false →
      resolveExternalMessagesConfig cfg7 "default" = none) ∧
    (isNullish (jsGet (getField accounts7 "acct") "externalMessages") = false →
      resolveExternalMessagesConfig
        { channels := some { telegram := some { accounts := some accounts7
                                                externalMessages := JsVal.obj [("secret", JsVal.str "chan")]
                                                historyLimit := none } }
          messages := none } "acct" =
      resolveExternalMessagesConfig
        { channels := some { telegram := some { accounts := some accounts7
                                                externalMessages := JsVal.null
                                                historyLimit := none } }
          messages := none } "acct") :=
  ⟨C7_secret_gate_and_override.1 cfg7 "default",
   C7_secret_gate_and_override.2 accounts7 "acct"
     (JsVal.obj [("secret", JsVal.str "chan")]) JsVal.null none none⟩

/-- **C9, counterexample.** The resolver happily returns a history
limit of `0`, which is not positive: the claim that every returned
history limit is a positive integer fails on the code, which never
validates the configured value. -/
theorem C9_counterexample_nonpositive_limit :
    resolveExternalMessagesConfig cfg9 "default" = some { secret := "s", historyLimit := 0 } ∧
    ¬ (0 : Int) > 0 :=
  ⟨rfl, by decide⟩

/-- **C9, amended.** For every account for which the resolver returns
a configuration, the returned history limit is a number chosen by
precedence — the resolved block's own numeric `historyLimit` if
present, else the channel-wide default, else the global default, else
`50` — with no positivity requirement enforced. -/
theorem C9_history_limit_precedence (cfg : OpenClawConfig) (aid : String)
    (c : ExternalMessagesConfig)
    (h : resolveExternalMessagesConfig cfg aid = some c) :
    ∃ config, resolvedExternalBlock cfg aid = some (JsVal.obj config) ∧
      ((∃ n, getField config "historyLimit" = JsVal.num n ∧ c.historyLimit = n) ∨
       ((∀ n, getField config "historyLimit" ≠ JsVal.num n) ∧
        c.historyLimit = (channelHistoryLimit cfg).getD ((globalHistoryLimit cfg).getD 50))) := by
  rw [resolve_decomposition] at h
  rcases hb : resolvedExternalBlock cfg aid with _ | block <;> rw [hb] at h
  · cases h
  cases block <;> simp [resolveFromBlock] at h
  next config =>
  refine ⟨config, rfl, ?_⟩
  rcases hsec : getField config "secret" with _ | _ | b | n | s | o | a <;>
    rw [hsec] at h <;> try simp at h
  obtain ⟨hst, hc⟩ := h
  subst hc
  rcases hh : getField config "historyLimit" with _ | _ | b2 | n2 | s2 | o2 | a2 <;>
    simp only [hh] <;>
    first
      | (left; exact ⟨n2, rfl, rfl⟩)
      | (right; exact ⟨(fun n hn => nomatch hn), trivial⟩)

/-- Witness for the amended C9 at the counterexample configuration. -/
theorem C9_witness :
    ∃ config, resolvedExternalBlock cfg9 "default" = some (JsVal.obj config) ∧
      ((∃ n, getField config "historyLimit" = JsVal.num n ∧
          ({ secret := "s", historyLimit := 0 } : ExternalMessagesConfig).historyLimit = n) ∨
       ((∀ n, getField config "historyLimit" ≠ JsVal.num n) ∧
        ({ secret := "s", historyLimit := 0 } : ExternalMessagesConfig).historyLimit =
          (channelHistoryLimit cfg9).getD ((globalHistoryLimit cfg9).getD 50))) :=
  C9_history_limit_precedence cfg9 "default" { secret := "s", historyLimit := 0 } rfl

/-- **C1.** Over any process lifetime — any sequence of session
registrations, deregistrations and requests starting from module
initialisation — every allocated synthetic update identifier is
strictly negative (so distinct from every non-negative
platform-issued identifier), the identifiers are strictly decreasing
in allocation order across all requests and accounts, and no
identifier is ever allocated twice. -/
theorem C1_synthetic_ids_negative_and_decreasing (actions : List BridgeAction) :
    (∀ i ∈ allocatedIds actions, i < 0) ∧
    List.Pairwise (fun a b => b < a) (allocatedIds actions) ∧
    (allocatedIds actions).Nodup := by
  obtain ⟨hle, hmem, hpw⟩ := runActions_spec actions initialBridgeState
  refine ⟨?_, hpw, ?_⟩
  · intro i hi
    have hub := (hmem i hi).2
    simp only [initialBridgeState] at hub
    omega
  · exact hpw.imp (fun hab => by omega)

/-- Witness for C1 at a concrete lifetime: one registration followed
by two successful injections. -/
theorem C1_witness :
    (∀ i ∈ allocatedIds [BridgeAction.register "default" botOK cfg0,
        BridgeAction.request req0, BridgeAction.request req0], i < 0) ∧
    List.Pairwise (fun a b => b < a)
      (allocatedIds [BridgeAction.register "default" botOK cfg0,
        BridgeAction.request req0, BridgeAction.request req0]) ∧
    (allocatedIds [BridgeAction.register "default" botOK cfg0,
        BridgeAction.request req0, BridgeAction.request req0]).Nodup :=
  C1_synthetic_ids_negative_and_decreasing
    [BridgeAction.register "default" botOK cfg0,
     BridgeAction.request req0, BridgeAction.request req0]

end OpenClaw
